import Mathlib

/-!
Verification of the pentardp-rs PDU codec layer.

This file shallowly embeds the encoder/decoder pairs of the repository in
Lean 4: bytes are natural numbers (values are kept below 256 by explicit
`% 256` reductions at the points where the Rust code truncates), byte
sources are lists consumed from the front, decoders return `Except` values
mirroring the `Result<T, PduError>` of the source, and encoders are pure
functions producing the byte list a `Vec<u8>` sink would accumulate.

Embedded components (file references are to the repository sources):
 - the `PduError` taxonomy (`src/pdu/mod.rs`);
 - the TPKT framer (`src/pdu/tpkt.rs`);
 - the BER sub-codec reader and writer (`src/codec/ber.rs`);
 - MCS Attach-User-Confirm and Channel-Join-Confirm (`src/pdu/mcs`);
 - the capability-set envelope and the four dedicated capability bodies
   (`src/pdu/rdp/capability`);
 - X.224 Connection Request and the RDP negotiation block
   (`src/pdu/x224/connection.rs`);
 - the Client Info PDU with its Unicode string helpers
   (`src/pdu/rdp/connection/client_info.rs`).

Rust `String` values are modelled as lists of Unicode scalar values, so
that both the UTF-8 byte length (`String::len`) and the UTF-16 code-unit
sequence (`str::encode_utf16`) of a string are definable; byte strings
(`Vec<u8>`, cookies) are plain lists of bytes.
-/

namespace Pentardp

/-- The error taxonomy of `PduError` in `src/pdu/mod.rs`. String payloads of
`InvalidHeader` and `ParseError` and the wrapped `std::io::Error` are dropped:
only the constructor and its numeric fields matter to the codec laws. -/
inductive PduError where
  | invalidLength (expected actual : Nat)
  | invalidHeader
  | unsupportedVersion (v : Nat)
  | parseError
  | ioError
  | insufficientData (needed available : Nat)
  | invalidPduType (t : Nat)
  deriving DecidableEq

/-! ## Byte-stream primitives

`readU8`/`readU16be`/... model `byteorder::ReadBytesExt` over a `Read`
source: a short read surfaces as `std::io::Error` (UnexpectedEof), which the
`?` operator converts into `PduError::IoError`. Writers model
`byteorder::WriteBytesExt` against a `Vec<u8>` sink, which cannot fail. -/

def readU8 : List Nat → Except PduError (Nat × List Nat)
  | [] => .error .ioError
  | b :: r => .ok (b, r)

def readU16be : List Nat → Except PduError (Nat × List Nat)
  | b0 :: b1 :: r => .ok (b0 * 256 + b1, r)
  | _ => .error .ioError

def readU16le : List Nat → Except PduError (Nat × List Nat)
  | b0 :: b1 :: r => .ok (b0 + 256 * b1, r)
  | _ => .error .ioError

def readU32le : List Nat → Except PduError (Nat × List Nat)
  | b0 :: b1 :: b2 :: b3 :: r =>
      .ok (b0 + 256 * b1 + 65536 * b2 + 16777216 * b3, r)
  | _ => .error .ioError

/-- `Read::read_exact` into a buffer of length `n`. -/
def readExact (n : Nat) (l : List Nat) : Except PduError (List Nat × List Nat) :=
  if n ≤ l.length then .ok (l.take n, l.drop n) else .error .ioError

def writeU8 (v : Nat) : List Nat := [v % 256]

def writeU16be (v : Nat) : List Nat := [v / 256 % 256, v % 256]

def writeU16le (v : Nat) : List Nat := [v % 256, v / 256 % 256]

def writeU32le (v : Nat) : List Nat :=
  [v % 256, v / 256 % 256, v / 65536 % 256, v / 16777216 % 256]

/-! ## TPKT framer (`src/pdu/tpkt.rs`) -/

/-- `TPKT_VERSION` -/
def TPKT_VERSION : Nat := 0x03

/-- `TPKT_HEADER_SIZE` -/
def TPKT_HEADER_SIZE : Nat := 4

/-- `TpktHeader`: version, reserved, 16-bit total length. -/
structure TpktHeader where
  version : Nat
  reserved : Nat
  length : Nat
  deriving DecidableEq

namespace TpktHeader

/-- `TpktHeader::new(payload_length)`: the `u16` sum
`TPKT_HEADER_SIZE as u16 + payload_length` wraps modulo 2^16. -/
def new (payload_length : Nat) : TpktHeader :=
  { version := TPKT_VERSION, reserved := 0
    length := (TPKT_HEADER_SIZE + payload_length % 65536) % 65536 }

/-- `TpktHeader::encode` -/
def encode (h : TpktHeader) : List Nat :=
  writeU8 h.version ++ writeU8 h.reserved ++ writeU16be h.length

/-- `TpktHeader::decode` -/
def decode (buffer : List Nat) : Except PduError (TpktHeader × List Nat) := do
  let (version, buffer) ← readU8 buffer
  let (reserved, buffer) ← readU8 buffer
  let (length, buffer) ← readU16be buffer
  if version ≠ TPKT_VERSION then
    throw (.unsupportedVersion version)
  else if length < TPKT_HEADER_SIZE then
    throw (.invalidLength TPKT_HEADER_SIZE length)
  else
    return ({ version, reserved, length }, buffer)

/-- `TpktHeader::payload_length` (`saturating_sub`). -/
def payload_length (h : TpktHeader) : Nat := h.length - TPKT_HEADER_SIZE

end TpktHeader

/-- `TpktPacket` -/
structure TpktPacket where
  header : TpktHeader
  payload : List Nat
  deriving DecidableEq

namespace TpktPacket

/-- `TpktPacket::new`: the payload length is truncated by `as u16`. -/
def new (payload : List Nat) : TpktPacket :=
  { header := TpktHeader.new (payload.length % 65536), payload }

/-- `TpktPacket::encode` -/
def encode (p : TpktPacket) : List Nat :=
  p.header.encode ++ p.payload

/-- `TpktPacket::decode` -/
def decode (buffer : List Nat) : Except PduError (TpktPacket × List Nat) := do
  let (header, buffer) ← TpktHeader.decode buffer
  let (payload, buffer) ← readExact header.payload_length buffer
  return ({ header, payload }, buffer)

/-- `TpktPacket::size` -/
def size (p : TpktPacket) : Nat := p.header.length

end TpktPacket

/-! ## BER sub-codec (`src/codec/ber.rs`)

`BerReader` borrows a slice and advances a cursor; only the unread suffix
ever matters to its operations (`remaining()` is the suffix length), so the
reader state is modelled as that suffix. `BerWriter` owns a growing byte
buffer; each write operation is modelled as the byte list it appends. -/

namespace BerReader

/-- `BerReader::read_tag` -/
def read_tag : List Nat → Except PduError (Nat × List Nat)
  | [] => .error (.insufficientData 1 0)
  | b :: r => .ok (b, r)

/-- Big-endian accumulation loop `length = (length << 8) | byte`. -/
def beAccum (bytes : List Nat) : Nat :=
  bytes.foldl (fun acc b => (acc <<< 8) ||| b) 0

/-- `BerReader::read_length` -/
def read_length (l : List Nat) : Except PduError (Nat × List Nat) :=
  match l with
  | [] => .error (.insufficientData 1 0)
  | first_byte :: r =>
    if first_byte &&& 0x80 = 0 then .ok (first_byte, r)
    else
      let num_octets := first_byte &&& 0x7F
      if num_octets = 0 then .error .parseError
      else if 4 < num_octets then .error .parseError
      else if r.length < num_octets then
        .error (.insufficientData num_octets r.length)
      else .ok (beAccum (r.take num_octets), r.drop num_octets)

/-- `BerReader::read_integer` -/
def read_integer (l : List Nat) : Except PduError (Nat × List Nat) := do
  let (tag, r) ← read_tag l
  if tag ≠ 0x02 then throw .parseError
  else do
    let (length, r) ← read_length r
    if length = 0 ∨ 4 < length then throw .parseError
    else if r.length < length then throw (.insufficientData length r.length)
    else return (beAccum (r.take length), r.drop length)

/-- `BerReader::read_enumerated` -/
def read_enumerated (l : List Nat) : Except PduError (Nat × List Nat) := do
  let (tag, r) ← read_tag l
  if tag ≠ 0x0A then throw .parseError
  else do
    let (length, r) ← read_length r
    if length ≠ 1 then throw .parseError
    else
      match r with
      | [] => throw (.insufficientData 1 0)
      | v :: r => return (v, r)

/-- `BerReader::read_application_tag`: checks the tag byte and returns the
declared envelope length. -/
def read_application_tag (expected_tag : Nat) (l : List Nat) :
    Except PduError (Nat × List Nat) := do
  let (tag, r) ← read_tag l
  if tag ≠ (0x40 ||| expected_tag) then throw .parseError
  else read_length r

end BerReader

namespace BerWriter

/-- Minimal big-endian base-256 digits of `n`, as produced by the
`while temp > 0` loops of `write_length` and `write_integer`. The fuel 8
covers every `usize`/`u32` value the source can pass. -/
def beBytesFuel : Nat → Nat → List Nat
  | 0, _ => []
  | fuel + 1, n => if n = 0 then [] else beBytesFuel fuel (n / 256) ++ [n % 256]

/-- `BerWriter::write_length` -/
def write_length (length : Nat) : List Nat :=
  if length < 128 then [length]
  else
    let octets := beBytesFuel 8 length
    (0x80 ||| octets.length) :: octets

/-- `BerWriter::write_integer` -/
def write_integer (value : Nat) : List Nat :=
  let bytes :=
    if value = 0 then [0]
    else
      let b := beBytesFuel 4 value
      if b.headD 0 &&& 0x80 ≠ 0 then 0 :: b else b
  0x02 :: (write_length bytes.length ++ bytes)

/-- `BerWriter::write_enumerated` -/
def write_enumerated (value : Nat) : List Nat :=
  0x0A :: (write_length 1 ++ [value])

/-- `BerWriter::write_application_tag`: the closure argument is modelled by
the bytes the inner writer accumulated. -/
def write_application_tag (tag : Nat) (inner : List Nat) : List Nat :=
  (0x40 ||| tag) :: (write_length inner.length ++ inner)

end BerWriter

/-! ## MCS confirm PDUs (`src/pdu/mcs/domain.rs`, `src/pdu/mcs/channel.rs`)

Both decoders begin with `buffer.read_to_end(&mut data)` and build a
`BerReader` over everything that was read, so the model decoders take the
entire remaining input and consume it all. -/

/-- `McsResult` -/
inductive McsResult where
  | RtSuccessful
  | RtDomainMerging
  | RtDomainNotHierarchical
  | RtNoSuchChannel
  | RtNoSuchDomain
  | RtNoSuchUser
  | RtNotAdmitted
  | RtOtherUserIdInvalid
  | RtParametersUnacceptable
  | RtTokenNotAvailable
  | RtTokenNotPossessed
  | RtTooManyChannels
  | RtTooManyTokens
  | RtTooManyUsers
  | RtUnspecifiedFailure
  | RtUserRejected
  deriving DecidableEq

namespace McsResult

/-- The `#[repr(u8)]` discriminant (`self as u8`). -/
def asU8 : McsResult → Nat
  | RtSuccessful => 0
  | RtDomainMerging => 1
  | RtDomainNotHierarchical => 2
  | RtNoSuchChannel => 3
  | RtNoSuchDomain => 4
  | RtNoSuchUser => 5
  | RtNotAdmitted => 6
  | RtOtherUserIdInvalid => 7
  | RtParametersUnacceptable => 8
  | RtTokenNotAvailable => 9
  | RtTokenNotPossessed => 10
  | RtTooManyChannels => 11
  | RtTooManyTokens => 12
  | RtTooManyUsers => 13
  | RtUnspecifiedFailure => 14
  | RtUserRejected => 15

/-- `McsResult::from_u8` -/
def fromU8 (value : Nat) : Option McsResult :=
  if value = 0 then some RtSuccessful
  else if value = 1 then some RtDomainMerging
  else if value = 2 then some RtDomainNotHierarchical
  else if value = 3 then some RtNoSuchChannel
  else if value = 4 then some RtNoSuchDomain
  else if value = 5 then some RtNoSuchUser
  else if value = 6 then some RtNotAdmitted
  else if value = 7 then some RtOtherUserIdInvalid
  else if value = 8 then some RtParametersUnacceptable
  else if value = 9 then some RtTokenNotAvailable
  else if value = 10 then some RtTokenNotPossessed
  else if value = 11 then some RtTooManyChannels
  else if value = 12 then some RtTooManyTokens
  else if value = 13 then some RtTooManyUsers
  else if value = 14 then some RtUnspecifiedFailure
  else if value = 15 then some RtUserRejected
  else none

end McsResult

/-- `AttachUserConfirm` -/
structure AttachUserConfirm where
  result : McsResult
  user_id : Option Nat
  deriving DecidableEq

namespace AttachUserConfirm

/-- `AttachUserConfirm::failure` -/
def failure (result : McsResult) : AttachUserConfirm :=
  { result, user_id := none }

/-- `AttachUserConfirm::encode` -/
def encode (c : AttachUserConfirm) : List Nat :=
  BerWriter.write_application_tag 11
    (BerWriter.write_enumerated c.result.asU8 ++
      match c.user_id with
      | some user_id => BerWriter.write_integer user_id
      | none => [])

/-- `AttachUserConfirm::decode`: consumes the whole input (`read_to_end`);
the optional initiator is read whenever `reader.remaining() > 0`, which is
measured against everything that was read, not against the envelope length
(the length returned by `read_application_tag` is discarded). -/
def decode (input : List Nat) : Except PduError AttachUserConfirm := do
  let (_, r) ← BerReader.read_application_tag 11 input
  let (result_code, r) ← BerReader.read_enumerated r
  match McsResult.fromU8 result_code with
  | none => throw .parseError
  | some result =>
    if 0 < r.length then do
      let (u, _) ← BerReader.read_integer r
      return { result, user_id := some (u % 65536) }
    else
      return { result, user_id := none }

end AttachUserConfirm

/-- `ChannelJoinConfirm` -/
structure ChannelJoinConfirm where
  result : McsResult
  user_id : Nat
  requested_channel_id : Nat
  channel_id : Option Nat
  deriving DecidableEq

namespace ChannelJoinConfirm

/-- `ChannelJoinConfirm::failure` -/
def failure (result : McsResult) (user_id requested_channel_id : Nat) :
    ChannelJoinConfirm :=
  { result, user_id, requested_channel_id, channel_id := none }

/-- `ChannelJoinConfirm::encode` -/
def encode (c : ChannelJoinConfirm) : List Nat :=
  BerWriter.write_application_tag 15
    (BerWriter.write_enumerated c.result.asU8 ++
      BerWriter.write_integer c.user_id ++
      BerWriter.write_integer c.requested_channel_id ++
      match c.channel_id with
      | some channel_id => BerWriter.write_integer channel_id
      | none => [])

/-- `ChannelJoinConfirm::decode`: like `AttachUserConfirm::decode`, reads to
end and tests `remaining()` against the whole input. -/
def decode (input : List Nat) : Except PduError ChannelJoinConfirm := do
  let (_, r) ← BerReader.read_application_tag 15 input
  let (result_code, r) ← BerReader.read_enumerated r
  match McsResult.fromU8 result_code with
  | none => throw .parseError
  | some result =>
    let (u, r) ← BerReader.read_integer r
    let (req, r) ← BerReader.read_integer r
    if 0 < r.length then do
      let (c, _) ← BerReader.read_integer r
      return { result, user_id := u % 65536, requested_channel_id := req % 65536,
               channel_id := some (c % 65536) }
    else
      return { result, user_id := u % 65536, requested_channel_id := req % 65536,
               channel_id := none }

end ChannelJoinConfirm

/-! ## Unicode string model

Rust `String` values are lists of Unicode scalar values. `strUtf8Len`
is `String::len` (the UTF-8 byte count), `encodeUtf16` is
`str::encode_utf16` (the UTF-16 code-unit sequence), `decodeUtf16` is
`String::from_utf16` (failing on lone or misordered surrogates). -/

/-- UTF-8 byte length of one Unicode scalar value. -/
def utf8Len (c : Nat) : Nat :=
  if c < 0x80 then 1 else if c < 0x800 then 2 else if c < 0x10000 then 3 else 4

/-- `String::len`: the UTF-8 byte count of a string. -/
def strUtf8Len (s : List Nat) : Nat := (s.map utf8Len).sum

/-- UTF-16 code units of one Unicode scalar value. -/
def utf16Units (c : Nat) : List Nat :=
  if c < 0x10000 then [c]
  else [0xD800 + (c - 0x10000) / 0x400, 0xDC00 + (c - 0x10000) % 0x400]

/-- `str::encode_utf16`: the UTF-16 code units of a string. -/
def encodeUtf16 (s : List Nat) : List Nat := (s.map utf16Units).flatten

/-- `String::from_utf16`: decode UTF-16 code units to scalar values, failing
on an invalid surrogate. -/
def decodeUtf16 : List Nat → Option (List Nat)
  | [] => some []
  | u :: r =>
    if u < 0xD800 ∨ 0xE000 ≤ u then (decodeUtf16 r).map (u :: ·)
    else if u < 0xDC00 then
      match r with
      | v :: r2 =>
        if 0xDC00 ≤ v ∧ v < 0xE000 then
          (decodeUtf16 r2).map ((0x10000 + (u - 0xD800) * 0x400 + (v - 0xDC00)) :: ·)
        else none
      | [] => none
    else none

/-- Collect little-endian UTF-16 code units from a byte buffer, stopping at
the first zero unit or at the end: the shared loop of the
`decode_unicode_string` helpers of `input.rs` and `client_info.rs`. -/
def collectUnitsLe : List Nat → List Nat
  | b0 :: b1 :: r =>
    let u := b0 + 256 * b1
    if u = 0 then [] else u :: collectUnitsLe r
  | _ => []

/-- `decode_unicode_string` of `input.rs` / `client_info.rs`: units up to the
first zero, decoded with `from_utf16`, `unwrap_or_default`. -/
def decode_unicode_buf (buf : List Nat) : List Nat :=
  (decodeUtf16 (collectUnitsLe buf)).getD []

/-- One step of the UTF-8 acceptance automaton behind
`std::str::from_utf8`: the state is the list of inclusive byte ranges the
next continuation bytes must fall in (empty at a sequence boundary). The
lead-byte table enforces shortest forms, excludes surrogates and caps at
U+10FFFF. -/
def utf8Step (st : List (Nat × Nat)) (b : Nat) : Option (List (Nat × Nat)) :=
  match st with
  | [] =>
    if b < 0x80 then some []
    else if b < 0xC2 then none
    else if b ≤ 0xDF then some [(0x80, 0xBF)]
    else if b = 0xE0 then some [(0xA0, 0xBF), (0x80, 0xBF)]
    else if b = 0xED then some [(0x80, 0x9F), (0x80, 0xBF)]
    else if b ≤ 0xEF then some [(0x80, 0xBF), (0x80, 0xBF)]
    else if b = 0xF0 then some [(0x90, 0xBF), (0x80, 0xBF), (0x80, 0xBF)]
    else if b = 0xF4 then some [(0x80, 0x8F), (0x80, 0xBF), (0x80, 0xBF)]
    else if b ≤ 0xF4 then some [(0x80, 0xBF), (0x80, 0xBF), (0x80, 0xBF)]
    else none
  | (lo, hi) :: st2 => if lo ≤ b ∧ b ≤ hi then some st2 else none

/-- Run the UTF-8 automaton over a byte list. -/
def utf8Run : List (Nat × Nat) → List Nat → Option (List (Nat × Nat))
  | st, [] => some st
  | st, b :: rest =>
    match utf8Step st b with
    | some st2 => utf8Run st2 rest
    | none => none

/-- `std::str::from_utf8` validity: the automaton accepts the whole input
and ends at a sequence boundary. -/
def isValidUtf8 (l : List Nat) : Bool :=
  decide (utf8Run [] l = some [])

/-- `str::find("\r\n")`: byte index of the first CR immediately followed by
LF. -/
def findCrlf : List Nat → Option Nat
  | b :: c :: rest =>
    if b = 13 ∧ c = 10 then some 0 else (findCrlf (c :: rest)).map (· + 1)
  | _ => none

/-! ## X.224 connection PDUs (`src/pdu/x224/connection.rs`) -/

/-- `X224_CR_TYPE` -/
def X224_CR_TYPE : Nat := 0xE0

/-- `X224_CC_TYPE` -/
def X224_CC_TYPE : Nat := 0xD0

/-- `X224_CONNECTION_HEADER_MIN_SIZE` -/
def X224_CONNECTION_HEADER_MIN_SIZE : Nat := 7

/-- `RDP_NEG_REQ` -/
def RDP_NEG_REQ : Nat := 0x01

/-- `RDP_NEG_DATA_SIZE` -/
def RDP_NEG_DATA_SIZE : Nat := 8

/-- `RdpNegotiation` -/
structure RdpNegotiation where
  neg_type : Nat
  flags : Nat
  selected_protocol : Nat
  deriving DecidableEq

namespace RdpNegotiation

/-- `RdpNegotiation::new_request` -/
def new_request (protocol : Nat) : RdpNegotiation :=
  { neg_type := RDP_NEG_REQ, flags := 0, selected_protocol := protocol }

/-- `RdpNegotiation::encode` -/
def encode (n : RdpNegotiation) : List Nat :=
  writeU8 n.neg_type ++ writeU8 n.flags ++ writeU16le RDP_NEG_DATA_SIZE
    ++ writeU32le n.selected_protocol

/-- `RdpNegotiation::decode`: note that the type byte is not validated, only
the length field is checked against 8. -/
def decode (l : List Nat) : Except PduError (RdpNegotiation × List Nat) := do
  let (neg_type, r) ← readU8 l
  let (flags, r) ← readU8 r
  let (length, r) ← readU16le r
  if length ≠ RDP_NEG_DATA_SIZE then
    throw (.invalidLength RDP_NEG_DATA_SIZE length)
  else do
    let (selected_protocol, r) ← readU32le r
    return ({ neg_type, flags, selected_protocol }, r)

/-- `RdpNegotiation::size` -/
def size (_n : RdpNegotiation) : Nat := RDP_NEG_DATA_SIZE

end RdpNegotiation

/-- `ConnectionHeader` -/
structure ConnectionHeader where
  length_indicator : Nat
  pdu_type : Nat
  dst_ref : Nat
  src_ref : Nat
  class_option : Nat
  deriving DecidableEq

namespace ConnectionHeader

/-- `ConnectionHeader::new_request` -/
def new_request (src_ref : Nat) : ConnectionHeader :=
  { length_indicator := 6, pdu_type := X224_CR_TYPE, dst_ref := 0, src_ref,
    class_option := 0 }

/-- `ConnectionHeader::encode` -/
def encode (h : ConnectionHeader) : List Nat :=
  writeU8 h.length_indicator ++ writeU8 h.pdu_type ++ writeU16le h.dst_ref
    ++ writeU16le h.src_ref ++ writeU8 h.class_option

/-- `ConnectionHeader::decode` -/
def decode (l : List Nat) : Except PduError (ConnectionHeader × List Nat) := do
  let (length_indicator, r) ← readU8 l
  let (pdu_type, r) ← readU8 r
  if pdu_type ≠ X224_CR_TYPE ∧ pdu_type ≠ X224_CC_TYPE then
    throw (.invalidPduType pdu_type)
  else do
    let (dst_ref, r) ← readU16le r
    let (src_ref, r) ← readU16le r
    let (class_option, r) ← readU8 r
    return ({ length_indicator, pdu_type, dst_ref, src_ref, class_option }, r)

/-- `ConnectionHeader::size` -/
def size (h : ConnectionHeader) : Nat := h.length_indicator + 1

end ConnectionHeader

/-- The ASCII bytes of the string `Cookie: mstshash=`. -/
def cookieTag : List Nat :=
  [67, 111, 111, 107, 105, 101, 58, 32, 109, 115, 116, 115, 104, 97, 115, 104, 61]

/-- `ConnectionRequest` (the cookie is the UTF-8 byte string of the Rust
`String`). -/
structure ConnectionRequest where
  header : ConnectionHeader
  cookie : Option (List Nat)
  rdp_negotiation : Option RdpNegotiation
  deriving DecidableEq

/-- The variable-region parsing inside `ConnectionRequest::decode`: the
whole region must be valid UTF-8 and start with `Cookie: mstshash=` for a
cookie to be recognized (up to and including the first CRLF); afterwards a
negotiation block is attempted whenever the cursor has bytes left, with a
failed attempt mapped to `None`. -/
def parseVariable (variable_data : List Nat) :
    Option (List Nat) × Option RdpNegotiation :=
  let cp :=
    if isValidUtf8 variable_data && cookieTag.isPrefixOf variable_data then
      match findCrlf variable_data with
      | some e => (some (variable_data.take (e + 2)), e + 2)
      | none => ((none : Option (List Nat)), 0)
    else (none, 0)
  let rdp_negotiation :=
    if cp.2 < variable_data.length then
      match RdpNegotiation.decode (variable_data.drop cp.2) with
      | .ok (n, _) => some n
      | .error _ => none
    else none
  (cp.1, rdp_negotiation)

namespace ConnectionRequest

/-- `ConnectionRequest::new` -/
def new (src_ref : Nat) : ConnectionRequest :=
  { header := ConnectionHeader.new_request src_ref, cookie := none,
    rdp_negotiation := none }

/-- `ConnectionRequest::update_length_indicator`: the `as u8` cast wraps. -/
def update_length_indicator (c : ConnectionRequest) : ConnectionRequest :=
  let variable_size := ((c.cookie.map List.length).getD 0)
    + ((c.rdp_negotiation.map RdpNegotiation.size).getD 0)
  { c with header := { c.header with
      length_indicator := (X224_CONNECTION_HEADER_MIN_SIZE - 1 + variable_size) % 256 } }

/-- `ConnectionRequest::with_cookie` (username given as UTF-8 bytes). -/
def with_cookie (c : ConnectionRequest) (username : List Nat) : ConnectionRequest :=
  update_length_indicator { c with cookie := some (cookieTag ++ username ++ [13, 10]) }

/-- `ConnectionRequest::with_negotiation` -/
def with_negotiation (c : ConnectionRequest) (protocol : Nat) : ConnectionRequest :=
  update_length_indicator
    { c with rdp_negotiation := some (RdpNegotiation.new_request protocol) }

/-- `ConnectionRequest::encode` -/
def encode (c : ConnectionRequest) : List Nat :=
  c.header.encode
    ++ (c.cookie.getD [])
    ++ ((c.rdp_negotiation.map RdpNegotiation.encode).getD [])

/-- `ConnectionRequest::decode` -/
def decode (l : List Nat) : Except PduError (ConnectionRequest × List Nat) := do
  let (header, r) ← ConnectionHeader.decode l
  if header.pdu_type ≠ X224_CR_TYPE then
    throw (.invalidPduType header.pdu_type)
  else
    let variable_length :=
      (header.length_indicator + 1) - X224_CONNECTION_HEADER_MIN_SIZE
    if 0 < variable_length then do
      let (variable_data, r) ← readExact variable_length r
      let cn := parseVariable variable_data
      return ({ header, cookie := cn.1, rdp_negotiation := cn.2 }, r)
    else
      return ({ header, cookie := none, rdp_negotiation := none }, r)

/-- `ConnectionRequest::size` -/
def size (c : ConnectionRequest) : Nat :=
  c.header.size + ((c.cookie.map List.length).getD 0)
    + ((c.rdp_negotiation.map RdpNegotiation.size).getD 0)

end ConnectionRequest

/-- The negotiation-attempt outcome described by the amended C5: a block is
decoded exactly when at least 8 bytes remain and the 16-bit little-endian
field in bytes 2-3 equals 8, whatever the type byte. Written from the spec
sentence to be compared with the code's behavior. -/
def negParse : List Nat → Option RdpNegotiation
  | t :: f :: l0 :: l1 :: p0 :: p1 :: p2 :: p3 :: _ =>
    if l0 + 256 * l1 = 8
    then some ⟨t, f, p0 + 256 * p1 + 65536 * p2 + 16777216 * p3⟩
    else none
  | _ => none

/-! ## RDP capability sets (`src/pdu/rdp/capability/`) -/

/-- `CapabilitySetType` (29 recognized type values). -/
inductive CapabilitySetType where
  | General
  | Bitmap
  | Order
  | BitmapCache
  | Control
  | Activation
  | Pointer
  | Share
  | ColorCache
  | Sound
  | Input
  | Font
  | Brush
  | GlyphCache
  | OffscreenCache
  | BitmapCacheHostSupport
  | BitmapCacheV2
  | VirtualChannel
  | DrawNineGrid
  | DrawGdiPlus
  | Rail
  | Window
  | DesktopComposition
  | MultifragmentUpdate
  | LargePointer
  | SurfaceCommands
  | BitmapCodecs
  | FrameAcknowledge
  deriving DecidableEq

namespace CapabilitySetType

/-- `CapabilitySetType::as_u16` (the `#[repr(u16)]` discriminant). -/
def as_u16 : CapabilitySetType → Nat
  | General => 0x0001
  | Bitmap => 0x0002
  | Order => 0x0003
  | BitmapCache => 0x0004
  | Control => 0x0005
  | Activation => 0x0007
  | Pointer => 0x0008
  | Share => 0x0009
  | ColorCache => 0x000A
  | Sound => 0x000C
  | Input => 0x000D
  | Font => 0x000E
  | Brush => 0x000F
  | GlyphCache => 0x0010
  | OffscreenCache => 0x0011
  | BitmapCacheHostSupport => 0x0012
  | BitmapCacheV2 => 0x0013
  | VirtualChannel => 0x0014
  | DrawNineGrid => 0x0015
  | DrawGdiPlus => 0x0016
  | Rail => 0x0017
  | Window => 0x0018
  | DesktopComposition => 0x0019
  | MultifragmentUpdate => 0x001A
  | LargePointer => 0x001B
  | SurfaceCommands => 0x001C
  | BitmapCodecs => 0x001D
  | FrameAcknowledge => 0x001E

/-- `CapabilitySetType::from_u16` -/
def from_u16 (value : Nat) : Option CapabilitySetType :=
  if value = 0x0001 then some General
  else if value = 0x0002 then some Bitmap
  else if value = 0x0003 then some Order
  else if value = 0x0004 then some BitmapCache
  else if value = 0x0005 then some Control
  else if value = 0x0007 then some Activation
  else if value = 0x0008 then some Pointer
  else if value = 0x0009 then some Share
  else if value = 0x000A then some ColorCache
  else if value = 0x000C then some Sound
  else if value = 0x000D then some Input
  else if value = 0x000E then some Font
  else if value = 0x000F then some Brush
  else if value = 0x0010 then some GlyphCache
  else if value = 0x0011 then some OffscreenCache
  else if value = 0x0012 then some BitmapCacheHostSupport
  else if value = 0x0013 then some BitmapCacheV2
  else if value = 0x0014 then some VirtualChannel
  else if value = 0x0015 then some DrawNineGrid
  else if value = 0x0016 then some DrawGdiPlus
  else if value = 0x0017 then some Rail
  else if value = 0x0018 then some Window
  else if value = 0x0019 then some DesktopComposition
  else if value = 0x001A then some MultifragmentUpdate
  else if value = 0x001B then some LargePointer
  else if value = 0x001C then some SurfaceCommands
  else if value = 0x001D then some BitmapCodecs
  else if value = 0x001E then some FrameAcknowledge
  else none

end CapabilitySetType

/-- `CapabilitySetHeader` -/
structure CapabilitySetHeader where
  capability_set_type : CapabilitySetType
  length_capability : Nat
  deriving DecidableEq

namespace CapabilitySetHeader

/-- `CapabilitySetHeader::SIZE` -/
def SIZE : Nat := 4

/-- `CapabilitySetHeader::encode` -/
def encode (h : CapabilitySetHeader) : List Nat :=
  writeU16le h.capability_set_type.as_u16 ++ writeU16le h.length_capability

/-- `CapabilitySetHeader::decode` -/
def decode (l : List Nat) : Except PduError (CapabilitySetHeader × List Nat) := do
  let (type_value, r) ← readU16le l
  match CapabilitySetType.from_u16 type_value with
  | none => throw .parseError
  | some capability_set_type => do
    let (length_capability, r) ← readU16le r
    return ({ capability_set_type, length_capability }, r)

end CapabilitySetHeader

/-- `GeneralCapability` (`general.rs`). -/
structure GeneralCapability where
  os_major_type : Nat
  os_minor_type : Nat
  protocol_version : Nat
  general_compression_types : Nat
  extra_flags : Nat
  update_capability_flag : Nat
  remote_unshare_flag : Nat
  general_compression_level : Nat
  refresh_rect_support : Nat
  suppress_output_support : Nat
  deriving DecidableEq

namespace GeneralCapability

/-- `GeneralCapability::DATA_SIZE` -/
def DATA_SIZE : Nat := 20

/-- `GeneralCapability::encode` (header plus 20-byte body). -/
def encode (c : GeneralCapability) : List Nat :=
  CapabilitySetHeader.encode ⟨.General, CapabilitySetHeader.SIZE + DATA_SIZE⟩
    ++ writeU16le c.os_major_type ++ writeU16le c.os_minor_type
    ++ writeU16le c.protocol_version ++ writeU16le 0
    ++ writeU16le c.general_compression_types ++ writeU16le c.extra_flags
    ++ writeU16le c.update_capability_flag ++ writeU16le c.remote_unshare_flag
    ++ writeU16le c.general_compression_level
    ++ writeU8 c.refresh_rect_support ++ writeU8 c.suppress_output_support

/-- `GeneralCapability::decode_data` (header already consumed). -/
def decode_data (_data_len : Nat) (l : List Nat) :
    Except PduError (GeneralCapability × List Nat) := do
  let (os_major_type, r) ← readU16le l
  let (os_minor_type, r) ← readU16le r
  let (protocol_version, r) ← readU16le r
  let (_padding, r) ← readU16le r
  let (general_compression_types, r) ← readU16le r
  let (extra_flags, r) ← readU16le r
  let (update_capability_flag, r) ← readU16le r
  let (remote_unshare_flag, r) ← readU16le r
  let (general_compression_level, r) ← readU16le r
  let (refresh_rect_support, r) ← readU8 r
  let (suppress_output_support, r) ← readU8 r
  return ({ os_major_type, os_minor_type, protocol_version,
            general_compression_types, extra_flags, update_capability_flag,
            remote_unshare_flag, general_compression_level,
            refresh_rect_support, suppress_output_support }, r)

end GeneralCapability

/-- `BitmapCapability` (`bitmap.rs`). -/
structure BitmapCapability where
  preferred_bits_per_pixel : Nat
  receive1_bits_per_pixel : Nat
  receive4_bits_per_pixel : Nat
  receive8_bits_per_pixel : Nat
  desktop_width : Nat
  desktop_height : Nat
  desktop_resize_flag : Nat
  bitmap_compression_flag : Nat
  high_color_flags : Nat
  drawing_flags : Nat
  multiple_rectangle_support : Nat
  deriving DecidableEq

namespace BitmapCapability

/-- `BitmapCapability::DATA_SIZE` -/
def DATA_SIZE : Nat := 24

/-- `BitmapCapability::encode` -/
def encode (c : BitmapCapability) : List Nat :=
  CapabilitySetHeader.encode ⟨.Bitmap, CapabilitySetHeader.SIZE + DATA_SIZE⟩
    ++ writeU16le c.preferred_bits_per_pixel ++ writeU16le c.receive1_bits_per_pixel
    ++ writeU16le c.receive4_bits_per_pixel ++ writeU16le c.receive8_bits_per_pixel
    ++ writeU16le c.desktop_width ++ writeU16le c.desktop_height
    ++ writeU16le 0 ++ writeU16le c.desktop_resize_flag
    ++ writeU16le c.bitmap_compression_flag
    ++ writeU8 c.high_color_flags ++ writeU8 c.drawing_flags
    ++ writeU16le c.multiple_rectangle_support ++ writeU16le 0

/-- `BitmapCapability::decode_data` -/
def decode_data (_data_len : Nat) (l : List Nat) :
    Except PduError (BitmapCapability × List Nat) := do
  let (preferred_bits_per_pixel, r) ← readU16le l
  let (receive1_bits_per_pixel, r) ← readU16le r
  let (receive4_bits_per_pixel, r) ← readU16le r
  let (receive8_bits_per_pixel, r) ← readU16le r
  let (desktop_width, r) ← readU16le r
  let (desktop_height, r) ← readU16le r
  let (_padding1, r) ← readU16le r
  let (desktop_resize_flag, r) ← readU16le r
  let (bitmap_compression_flag, r) ← readU16le r
  let (high_color_flags, r) ← readU8 r
  let (drawing_flags, r) ← readU8 r
  let (multiple_rectangle_support, r) ← readU16le r
  let (_padding2, r) ← readU16le r
  return ({ preferred_bits_per_pixel, receive1_bits_per_pixel,
            receive4_bits_per_pixel, receive8_bits_per_pixel, desktop_width,
            desktop_height, desktop_resize_flag, bitmap_compression_flag,
            high_color_flags, drawing_flags, multiple_rectangle_support }, r)

end BitmapCapability

/-- `OrderCapability` (`order.rs`); the two fixed-size arrays are byte
lists (16 and 32 bytes respectively in every value the code builds). -/
structure OrderCapability where
  terminal_descriptor : List Nat
  desktop_save_x_granularity : Nat
  desktop_save_y_granularity : Nat
  maximum_order_level : Nat
  number_fonts : Nat
  order_flags : Nat
  order_support : List Nat
  text_flags : Nat
  order_support_ex_flags : Nat
  desktop_save_size : Nat
  text_ansi_code_page : Nat
  deriving DecidableEq

namespace OrderCapability

/-- `OrderCapability::DATA_SIZE` -/
def DATA_SIZE : Nat := 84

/-- `OrderCapability::encode` -/
def encode (c : OrderCapability) : List Nat :=
  CapabilitySetHeader.encode ⟨.Order, CapabilitySetHeader.SIZE + DATA_SIZE⟩
    ++ c.terminal_descriptor ++ writeU32le 0
    ++ writeU16le c.desktop_save_x_granularity
    ++ writeU16le c.desktop_save_y_granularity ++ writeU16le 0
    ++ writeU16le c.maximum_order_level ++ writeU16le c.number_fonts
    ++ writeU16le c.order_flags ++ c.order_support
    ++ writeU16le c.text_flags ++ writeU16le c.order_support_ex_flags
    ++ writeU32le 0 ++ writeU32le c.desktop_save_size
    ++ writeU16le 0 ++ writeU16le 0
    ++ writeU16le c.text_ansi_code_page ++ writeU16le 0

/-- `OrderCapability::decode_data` -/
def decode_data (_data_len : Nat) (l : List Nat) :
    Except PduError (OrderCapability × List Nat) := do
  let (terminal_descriptor, r) ← readExact 16 l
  let (_padding1, r) ← readU32le r
  let (desktop_save_x_granularity, r) ← readU16le r
  let (desktop_save_y_granularity, r) ← readU16le r
  let (_padding2, r) ← readU16le r
  let (maximum_order_level, r) ← readU16le r
  let (number_fonts, r) ← readU16le r
  let (order_flags, r) ← readU16le r
  let (order_support, r) ← readExact 32 r
  let (text_flags, r) ← readU16le r
  let (order_support_ex_flags, r) ← readU16le r
  let (_padding3, r) ← readU32le r
  let (desktop_save_size, r) ← readU32le r
  let (_padding4, r) ← readU16le r
  let (_padding5, r) ← readU16le r
  let (text_ansi_code_page, r) ← readU16le r
  let (_padding6, r) ← readU16le r
  return ({ terminal_descriptor, desktop_save_x_granularity,
            desktop_save_y_granularity, maximum_order_level, number_fonts,
            order_flags, order_support, text_flags, order_support_ex_flags,
            desktop_save_size, text_ansi_code_page }, r)

end OrderCapability

/-- `InputFlags` known-bit mask of `input.rs` (`from_bits_truncate`). -/
def INPUT_FLAGS_MASK : Nat := 0x01FD

/-- `InputCapability` (`input.rs`); `ime_file_name` is a string of Unicode
scalar values. -/
structure InputCapability where
  input_flags : Nat
  keyboard_layout : Nat
  keyboard_type : Nat
  keyboard_subtype : Nat
  keyboard_function_key : Nat
  ime_file_name : List Nat
  deriving DecidableEq

namespace InputCapability

/-- `InputCapability::DATA_SIZE` -/
def DATA_SIZE : Nat := 84

/-- `InputCapability::IME_FILE_NAME_SIZE` -/
def IME_FILE_NAME_SIZE : Nat := 64

/-- `encode_unicode_string` of `input.rs`: up to 32 UTF-16 code units into a
zero-initialized 64-byte buffer. -/
def imeEncodeBuf (s : List Nat) : List Nat :=
  let us := (encodeUtf16 s).take (IME_FILE_NAME_SIZE / 2)
  (us.map writeU16le).flatten ++ List.replicate (IME_FILE_NAME_SIZE - 2 * us.length) 0

/-- `InputCapability::encode` -/
def encode (c : InputCapability) : List Nat :=
  CapabilitySetHeader.encode ⟨.Input, CapabilitySetHeader.SIZE + DATA_SIZE⟩
    ++ writeU16le c.input_flags ++ writeU16le 0
    ++ writeU32le c.keyboard_layout ++ writeU32le c.keyboard_type
    ++ writeU32le c.keyboard_subtype ++ writeU32le c.keyboard_function_key
    ++ imeEncodeBuf c.ime_file_name

/-- `InputCapability::decode_data` -/
def decode_data (_data_len : Nat) (l : List Nat) :
    Except PduError (InputCapability × List Nat) := do
  let (input_flags_bits, r) ← readU16le l
  let (_padding, r) ← readU16le r
  let (keyboard_layout, r) ← readU32le r
  let (keyboard_type, r) ← readU32le r
  let (keyboard_subtype, r) ← readU32le r
  let (keyboard_function_key, r) ← readU32le r
  let (ime_buf, r) ← readExact IME_FILE_NAME_SIZE r
  return ({ input_flags := input_flags_bits &&& INPUT_FLAGS_MASK,
            keyboard_layout, keyboard_type, keyboard_subtype,
            keyboard_function_key,
            ime_file_name := decode_unicode_buf ime_buf }, r)

end InputCapability

/-- `CapabilitySet` (`sets.rs`). -/
inductive CapabilitySet where
  | General (cap : GeneralCapability)
  | Bitmap (cap : BitmapCapability)
  | Order (cap : OrderCapability)
  | Input (cap : InputCapability)
  | Unknown (type_val : Nat) (data : List Nat)
  deriving DecidableEq

namespace CapabilitySet

/-- `CapabilitySet::encode` -/
def encode : CapabilitySet → List Nat
  | General cap => cap.encode
  | Bitmap cap => cap.encode
  | Order cap => cap.encode
  | Input cap => cap.encode
  | Unknown type_val data =>
    CapabilitySetHeader.encode
      ⟨(CapabilitySetType.from_u16 type_val).getD .General,
        (CapabilitySetHeader.SIZE + data.length) % 65536⟩
    ++ data

/-- `CapabilitySet::decode`. The source computes
`header.length_capability as usize - CapabilitySetHeader::SIZE` in `usize`
arithmetic, which is only well defined (no overflow/panic) when the declared
length is at least 4; the model uses truncated `Nat` subtraction, which
agrees on that domain. -/
def decode (l : List Nat) : Except PduError (CapabilitySet × List Nat) := do
  let (header, r) ← CapabilitySetHeader.decode l
  let data_len := header.length_capability - CapabilitySetHeader.SIZE
  match header.capability_set_type with
  | .General => do
    let (cap, r) ← GeneralCapability.decode_data data_len r
    return (General cap, r)
  | .Bitmap => do
    let (cap, r) ← BitmapCapability.decode_data data_len r
    return (Bitmap cap, r)
  | .Order => do
    let (cap, r) ← OrderCapability.decode_data data_len r
    return (Order cap, r)
  | .Input => do
    let (cap, r) ← InputCapability.decode_data data_len r
    return (Input cap, r)
  | t => do
    let (data, r) ← readExact data_len r
    return (Unknown t.as_u16 data, r)

end CapabilitySet

/-! ## Client Info PDU (`src/pdu/rdp/connection/client_info.rs`) -/

/-- Union of the `ClientInfoFlags` constants (`from_bits_truncate` mask). -/
def CLIENT_INFO_FLAGS_MASK : Nat :=
  0x00000001 ||| 0x00000002 ||| 0x00000008 ||| 0x00000010 ||| 0x00000020
    ||| 0x00000040 ||| 0x00000080 ||| 0x00000100 ||| 0x00002000
    ||| 0x00004000 ||| 0x00008000 ||| 0x00010000 ||| 0x00020000
    ||| 0x00040000 ||| 0x00080000 ||| 0x00100000 ||| 0x00200000
    ||| 0x00400000 ||| 0x02000000

/-- Union of the `PerformanceFlags` constants (`from_bits_truncate` mask). -/
def PERF_FLAGS_MASK : Nat :=
  0x00000001 ||| 0x00000002 ||| 0x00000004 ||| 0x00000008 ||| 0x00000020
    ||| 0x00000040 ||| 0x00000080 ||| 0x00000100

/-- `encode_string_length`: `((s.len() + 1) * 2) as u16` — note this is the
UTF-8 byte length of the string, not its UTF-16 code-unit count. -/
def encode_string_length (s : List Nat) : Nat := ((strUtf8Len s + 1) * 2) % 65536

/-- `write_unicode_string`: each UTF-16 code unit little-endian, then a zero
code unit. -/
def write_unicode_string (s : List Nat) : List Nat :=
  ((encodeUtf16 s).map writeU16le).flatten ++ writeU16le 0

/-- The unit-reading loop of `read_unicode_string` (`byte_count / 2`
little-endian reads). -/
def readUnits : Nat → List Nat → Except PduError (List Nat × List Nat)
  | 0, l => .ok ([], l)
  | n + 1, l => do
    let (u, r) ← readU16le l
    let (us, r2) ← readUnits n r
    return (u :: us, r2)

/-- `read_unicode_string(byte_count)`: reads `byte_count / 2` code units,
keeps only the nonzero ones, and converts with `String::from_utf16`. -/
def read_unicode_string (byte_count : Nat) (l : List Nat) :
    Except PduError (List Nat × List Nat) :=
  if byte_count = 0 then .ok ([], l)
  else do
    let (us, r) ← readUnits (byte_count / 2) l
    match decodeUtf16 (us.filter (· ≠ 0)) with
    | some s => return (s, r)
    | none => throw .parseError

/-- `encode_unicode_string` of `client_info.rs` into a 64-byte buffer with
`max_chars` 32: at most 31 UTF-16 units, the rest of the buffer zero. -/
def tzNameBuf (s : List Nat) : List Nat :=
  let us := (encodeUtf16 s).take 31
  (us.map writeU16le).flatten ++ List.replicate (64 - 2 * us.length) 0

/-- `TimeZoneInformation` (names are strings of Unicode scalar values, the
two dates are 16-byte lists). -/
structure TimeZoneInformation where
  bias : Nat
  standard_name : List Nat
  standard_date : List Nat
  standard_bias : Nat
  daylight_name : List Nat
  daylight_date : List Nat
  daylight_bias : Nat
  deriving DecidableEq

namespace TimeZoneInformation

/-- `TimeZoneInformation::SIZE` -/
def SIZE : Nat := 172

/-- `TimeZoneInformation::encode` -/
def encode (tz : TimeZoneInformation) : List Nat :=
  writeU32le tz.bias ++ tzNameBuf tz.standard_name ++ tz.standard_date
    ++ writeU32le tz.standard_bias ++ tzNameBuf tz.daylight_name
    ++ tz.daylight_date ++ writeU32le tz.daylight_bias

/-- `TimeZoneInformation::decode` -/
def decode (l : List Nat) : Except PduError (TimeZoneInformation × List Nat) := do
  let (bias, r) ← readU32le l
  let (standard_name_buf, r) ← readExact 64 r
  let (standard_date, r) ← readExact 16 r
  let (standard_bias, r) ← readU32le r
  let (daylight_name_buf, r) ← readExact 64 r
  let (daylight_date, r) ← readExact 16 r
  let (daylight_bias, r) ← readU32le r
  return ({ bias, standard_name := decode_unicode_buf standard_name_buf,
            standard_date, standard_bias,
            daylight_name := decode_unicode_buf daylight_name_buf,
            daylight_date, daylight_bias }, r)

end TimeZoneInformation

/-- `ExtendedInfo` -/
structure ExtendedInfo where
  client_address_family : Nat
  client_address : List Nat
  client_dir : List Nat
  client_time_zone : TimeZoneInformation
  client_session_id : Nat
  performance_flags : Nat
  deriving DecidableEq

/-- `ClientInfoPdu` (the five strings are lists of Unicode scalar values;
`flags` and `performance_flags` carry the `bitflags` bit patterns). -/
structure ClientInfoPdu where
  code_page : Nat
  flags : Nat
  domain : List Nat
  user_name : List Nat
  password : List Nat
  alternate_shell : List Nat
  working_dir : List Nat
  extended_info : Option ExtendedInfo
  deriving DecidableEq

namespace ClientInfoPdu

/-- `ClientInfoPdu::encode` -/
def encode (p : ClientInfoPdu) : List Nat :=
  writeU32le p.code_page ++ writeU32le p.flags
    ++ writeU16le (encode_string_length p.domain)
    ++ writeU16le (encode_string_length p.user_name)
    ++ writeU16le (encode_string_length p.password)
    ++ writeU16le (encode_string_length p.alternate_shell)
    ++ writeU16le (encode_string_length p.working_dir)
    ++ write_unicode_string p.domain
    ++ write_unicode_string p.user_name
    ++ write_unicode_string p.password
    ++ write_unicode_string p.alternate_shell
    ++ write_unicode_string p.working_dir
    ++ match p.extended_info with
       | none => []
       | some ext =>
         writeU16le ext.client_address_family
           ++ writeU16le (encode_string_length ext.client_address)
           ++ write_unicode_string ext.client_address
           ++ writeU16le (encode_string_length ext.client_dir)
           ++ write_unicode_string ext.client_dir
           ++ ext.client_time_zone.encode
           ++ writeU32le ext.client_session_id
           ++ writeU32le ext.performance_flags
           ++ writeU16le 0

/-- The auto-reconnect-cookie skip at the end of the extended-info decode:
`if let Ok(cb) = read_u16 { if cb > 0 { let _ = read_exact(cb bytes) } }`
(a short skip consumes what is available and the error is discarded). -/
def skipAutoReconnect (l : List Nat) : List Nat :=
  match readU16le l with
  | .error _ => l
  | .ok (cb, r) => if 0 < cb then r.drop cb else r

/-- `ClientInfoPdu::decode`. The extended block is present iff the first
`read_u16` after the five strings succeeds; errors inside the extended
block itself propagate. -/
def decode (l : List Nat) : Except PduError (ClientInfoPdu × List Nat) := do
  let (code_page, r) ← readU32le l
  let (flags_bits, r) ← readU32le r
  let flags := flags_bits &&& CLIENT_INFO_FLAGS_MASK
  let (cb_domain, r) ← readU16le r
  let (cb_user_name, r) ← readU16le r
  let (cb_password, r) ← readU16le r
  let (cb_alternate_shell, r) ← readU16le r
  let (cb_working_dir, r) ← readU16le r
  let (domain, r) ← read_unicode_string cb_domain r
  let (user_name, r) ← read_unicode_string cb_user_name r
  let (password, r) ← read_unicode_string cb_password r
  let (alternate_shell, r) ← read_unicode_string cb_alternate_shell r
  let (working_dir, r) ← read_unicode_string cb_working_dir r
  match readU16le r with
  | .error _ =>
    return ({ code_page, flags, domain, user_name, password, alternate_shell,
              working_dir, extended_info := none }, r)
  | .ok (client_address_family, r2) => do
    let (cb_client_address, r2) ← readU16le r2
    let (client_address, r2) ← read_unicode_string cb_client_address r2
    let (cb_client_dir, r2) ← readU16le r2
    let (client_dir, r2) ← read_unicode_string cb_client_dir r2
    let (client_time_zone, r2) ← TimeZoneInformation.decode r2
    let (client_session_id, r2) ← readU32le r2
    let (performance_flags_bits, r2) ← readU32le r2
    let r3 := skipAutoReconnect r2
    return ({ code_page, flags, domain, user_name, password, alternate_shell,
              working_dir,
              extended_info := some
                { client_address_family, client_address, client_dir,
                  client_time_zone, client_session_id,
                  performance_flags := performance_flags_bits &&& PERF_FLAGS_MASK } },
            r3)

/-- `ClientInfoPdu::size`: note the string contributions use `String::len`
(UTF-8 byte counts). -/
def size (p : ClientInfoPdu) : Nat :=
  let base := 4 + 4 + 2 + 2 + 2 + 2 + 2
    + (strUtf8Len p.domain + 1) * 2
    + (strUtf8Len p.user_name + 1) * 2
    + (strUtf8Len p.password + 1) * 2
    + (strUtf8Len p.alternate_shell + 1) * 2
    + (strUtf8Len p.working_dir + 1) * 2
  match p.extended_info with
  | none => base
  | some ext => base
      + 2 + (2 + (strUtf8Len ext.client_address + 1) * 2)
      + (2 + (strUtf8Len ext.client_dir + 1) * 2)
      + TimeZoneInformation.SIZE + 4 + 4 + 2

end ClientInfoPdu

/-! ## Helper lemmas about the byte-stream primitives -/

theorem readU16be_writeU16be (v : Nat) (r : List Nat) :
    readU16be (writeU16be v ++ r) = .ok (v % 65536, r) := by
  simp only [writeU16be, List.cons_append, List.nil_append, readU16be]
  congr 2
  omega

theorem readU16le_writeU16le (v : Nat) (r : List Nat) :
    readU16le (writeU16le v ++ r) = .ok (v % 65536, r) := by
  simp only [writeU16le, List.cons_append, List.nil_append, readU16le]
  congr 2
  omega

theorem readU32le_writeU32le (v : Nat) (r : List Nat) :
    readU32le (writeU32le v ++ r) = .ok (v % 4294967296, r) := by
  simp only [writeU32le, List.cons_append, List.nil_append, readU32le]
  congr 2
  omega

theorem readExact_append (xs r : List Nat) :
    readExact xs.length (xs ++ r) = .ok (xs, r) := by
  simp [readExact, List.take_append, List.drop_append]

theorem readExact_self (l : List Nat) : readExact l.length l = .ok (l, []) := by
  have h := readExact_append l []
  simpa using h

/-! ## Lemmas about the Unicode and cookie helpers -/

theorem utf8Run_cons (st : List (Nat × Nat)) (b : Nat) (rest : List Nat) :
    utf8Run st (b :: rest)
      = match utf8Step st b with
        | some st2 => utf8Run st2 rest
        | none => none := rfl

theorem isValidUtf8_of_ascii :
    ∀ l : List Nat, (∀ b ∈ l, b < 0x80) → isValidUtf8 l = true := by
  intro l
  induction l with
  | nil => intro _; rfl
  | cons b rest ih =>
    intro h
    have hb : b < 0x80 := h b (by simp)
    have hs : utf8Step [] b = some [] := by
      simp [utf8Step, hb]
    have := ih fun x hx => h x (List.mem_cons_of_mem b hx)
    simp only [isValidUtf8, utf8Run_cons, hs] at *
    exact this

theorem findCrlf_append :
    ∀ xs : List Nat, (∀ b ∈ xs, b ≠ 13) → ∀ r : List Nat,
      findCrlf (xs ++ 13 :: 10 :: r) = some xs.length := by
  intro xs
  induction xs with
  | nil => intro _ r; simp [findCrlf]
  | cons x xs ih =>
    intro h r
    have hx : x ≠ 13 := h x (by simp)
    have h' : ∀ b ∈ xs, b ≠ 13 := fun b hb => h b (by simp [hb])
    cases xs with
    | nil => simp [findCrlf, hx]
    | cons y ys =>
      have hih := ih h' r
      simp only [List.cons_append, List.length_cons] at hih
      simp only [List.cons_append, List.length_cons]
      rw [findCrlf, if_neg (by simp [hx]), hih]
      simp

theorem strUtf8Len_ascii :
    ∀ s : List Nat, (∀ c ∈ s, c < 0x80) → strUtf8Len s = s.length := by
  intro s
  induction s with
  | nil => intro _; rfl
  | cons c s ih =>
    intro h
    have hc : c < 0x80 := h c (by simp)
    simp only [strUtf8Len, List.map_cons, List.sum_cons, utf8Len, if_pos hc,
      List.length_cons]
    have := ih fun x hx => h x (by simp [hx])
    simp only [strUtf8Len] at this
    omega

theorem encodeUtf16_ascii :
    ∀ s : List Nat, (∀ c ∈ s, c < 0x80) → encodeUtf16 s = s := by
  intro s
  induction s with
  | nil => intro _; rfl
  | cons c s ih =>
    intro h
    have hc : c < 0x10000 := by
      have := h c (by simp)
      omega
    have ihs := ih fun x hx => h x (by simp [hx])
    simp only [encodeUtf16] at ihs
    simp only [encodeUtf16, List.map_cons, List.flatten_cons, utf16Units,
      if_pos hc, ihs]
    rfl

theorem decodeUtf16_of_below :
    ∀ s : List Nat, (∀ c ∈ s, c < 0xD800) → decodeUtf16 s = some s := by
  intro s
  induction s with
  | nil => intro _; rfl
  | cons c s ih =>
    intro h
    have hc : c < 0xD800 := h c (by simp)
    have ihs := ih fun x hx => h x (List.mem_cons_of_mem c hx)
    rw [decodeUtf16.eq_def]
    simp only [if_pos (Or.inl hc), ihs]
    rfl

theorem readUnits_flatten :
    ∀ (us rest : List Nat), (∀ u ∈ us, u < 65536) →
      readUnits us.length ((us.map writeU16le).flatten ++ rest) = .ok (us, rest) := by
  intro us
  induction us with
  | nil => intro rest _; simp [readUnits]
  | cons u us ih =>
    intro rest h
    have hu : u < 65536 := h u (by simp)
    have ih' := ih rest fun x hx => h x (by simp [hx])
    simp only [List.map_cons, List.flatten_cons, List.length_cons,
      List.append_assoc, readUnits, readU16le_writeU16le, Nat.mod_eq_of_lt hu,
      bind, Except.bind, ih', pure, Except.pure]

/-- The Client Info Unicode string round-trip for ASCII strings without NUL
characters: reading back `encode_string_length s` bytes of
`write_unicode_string s` returns `s` and leaves the rest untouched. -/
theorem read_unicode_string_roundtrip (s rest : List Nat)
    (hascii : ∀ c ∈ s, 0 < c ∧ c < 0x80) (hlen : s.length < 32767) :
    read_unicode_string (encode_string_length s)
        (write_unicode_string s ++ rest) = .ok (s, rest) := by
  have hascii' : ∀ c ∈ s, c < 0x80 := fun c hc => (hascii c hc).2
  have hutf8 : strUtf8Len s = s.length := strUtf8Len_ascii s hascii'
  have hcb : encode_string_length s = (s.length + 1) * 2 := by
    simp only [encode_string_length, hutf8]
    omega
  have hw : write_unicode_string s = ((s ++ [0]).map writeU16le).flatten := by
    simp only [write_unicode_string, encodeUtf16_ascii s hascii', List.map_append,
      List.flatten_append]
    rfl
  have hall : ∀ u ∈ s ++ [0], u < 65536 := by
    intro u hu
    rcases List.mem_append.mp hu with h | h
    · have := hascii' u h
      omega
    · simp at h
      omega
  have hread := readUnits_flatten (s ++ [0]) rest hall
  have hfil : (s ++ [0]).filter (· ≠ 0) = s := by
    have h1 : s.filter (· ≠ 0) = s := by
      rw [List.filter_eq_self]
      intro c hc
      have := (hascii c hc).1
      simp only [ne_eq, decide_eq_true_eq]
      omega
    have h2 : ([0] : List Nat).filter (· ≠ 0) = [] := rfl
    rw [List.filter_append, h1, h2, List.append_nil]
  have hdec : decodeUtf16 s = some s :=
    decodeUtf16_of_below s fun c hc => by
      have := hascii' c hc
      omega
  rw [hcb, hw]
  simp only [read_unicode_string]
  have hne : ¬((s.length + 1) * 2 = 0) := by omega
  have hdiv : (s.length + 1) * 2 / 2 = (s ++ [0]).length := by
    simp only [List.length_append, List.length_cons, List.length_nil]
    omega
  simp only [if_neg hne, hdiv, hread, bind, Except.bind, hfil, hdec, pure,
    Except.pure]

/-! ## Claim theorems: TPKT -/

/-- C7: given at least 4 input bytes, `TpktHeader::decode` returns
unsupported-version(v) exactly when the version byte v differs from 3; with
version 3 it returns invalid-length with expected 4 and the actual big-endian
length exactly when that length is below 4; in every other case the header
decodes successfully. -/
theorem c7_tpkt_header_decode_classification (b0 b1 b2 b3 : Nat) (rest : List Nat) :
    (b0 ≠ 3 → TpktHeader.decode (b0 :: b1 :: b2 :: b3 :: rest) =
      .error (.unsupportedVersion b0))
    ∧ (b0 = 3 → b2 * 256 + b3 < 4 →
        TpktHeader.decode (b0 :: b1 :: b2 :: b3 :: rest) =
          .error (.invalidLength 4 (b2 * 256 + b3)))
    ∧ (b0 = 3 → 4 ≤ b2 * 256 + b3 →
        TpktHeader.decode (b0 :: b1 :: b2 :: b3 :: rest) =
          .ok (⟨3, b1, b2 * 256 + b3⟩, rest)) := by
  refine ⟨fun h => ?_, fun h h4 => ?_, fun h h4 => ?_⟩
  · simp [TpktHeader.decode, readU8, readU16be, TPKT_VERSION, TPKT_HEADER_SIZE,
      bind, Except.bind, throw, throwThe, MonadExceptOf.throw, pure, Except.pure, h]
  · subst h
    simp [TpktHeader.decode, readU8, readU16be, TPKT_VERSION, TPKT_HEADER_SIZE,
      bind, Except.bind, throw, throwThe, MonadExceptOf.throw, pure, Except.pure]
    omega
  · subst h
    simp [TpktHeader.decode, readU8, readU16be, TPKT_VERSION, TPKT_HEADER_SIZE,
      bind, Except.bind, throw, throwThe, MonadExceptOf.throw, pure, Except.pure]
    omega

/-- Witness for C7 at concrete headers: version byte 2, a version-3 header
with length 2, and a version-3 header with length 8. -/
theorem c7_witness :
    TpktHeader.decode [2, 0, 0, 4] = .error (.unsupportedVersion 2)
    ∧ TpktHeader.decode [3, 0, 0, 2] = .error (.invalidLength 4 2)
    ∧ TpktHeader.decode [3, 0, 0, 8] = .ok (⟨3, 0, 8⟩, []) := by
  refine ⟨?_, ?_, ?_⟩
  · exact (c7_tpkt_header_decode_classification 2 0 0 4 []).1 (by decide)
  · exact (c7_tpkt_header_decode_classification 3 0 0 2 []).2.1 rfl (by decide)
  · exact (c7_tpkt_header_decode_classification 3 0 0 8 []).2.2 rfl (by decide)

/-- C9: `TpktPacket::new(p)` stores total length `(4 + len(p)) mod 2^16`; for
payloads up to 65531 bytes this is exactly `4 + len(p)` and the derived
payload length equals `len(p)`, while for longer payloads the stored length
wraps and the derived-length invariant breaks even though `encode` still
writes the complete payload (4 + len(p) bytes in total). -/
theorem c9_tpkt_new_length_wraps (p : List Nat) :
    (TpktPacket.new p).header.length = (4 + p.length) % 65536
    ∧ (p.length ≤ 65531 → (TpktPacket.new p).header.length = 4 + p.length
        ∧ (TpktPacket.new p).header.payload_length = p.length)
    ∧ (65531 < p.length → (TpktPacket.new p).header.payload_length ≠ p.length)
    ∧ (TpktPacket.encode (TpktPacket.new p)).length = 4 + p.length := by
  refine ⟨?_, fun h => ⟨?_, ?_⟩, fun h => ?_, ?_⟩
  · simp only [TpktPacket.new, TpktHeader.new, TPKT_HEADER_SIZE]
    omega
  · simp only [TpktPacket.new, TpktHeader.new, TPKT_HEADER_SIZE]
    omega
  · simp only [TpktPacket.new, TpktHeader.new, TpktHeader.payload_length,
      TPKT_HEADER_SIZE]
    omega
  · simp only [TpktPacket.new, TpktHeader.new, TpktHeader.payload_length,
      TPKT_HEADER_SIZE]
    omega
  · simp only [TpktPacket.encode, TpktPacket.new, TpktHeader.encode,
      TpktHeader.new, writeU8, writeU16be, List.append_assoc, List.length_append,
      List.length_cons, List.length_nil]
    omega

/-- Witness for C9: a 3-byte payload keeps the invariant, a 65532-byte
payload wraps the stored length and breaks it. -/
theorem c9_witness :
    ((List.replicate 65532 (0 : Nat)).length ≤ 65531 → False)
    ∧ 65531 < (List.replicate 65532 (0 : Nat)).length
    ∧ (TpktPacket.new (List.replicate 65532 (0 : Nat))).header.payload_length
        ≠ (List.replicate 65532 (0 : Nat)).length
    ∧ (List.replicate 3 (0 : Nat)).length ≤ 65531
    ∧ (TpktPacket.new (List.replicate 3 (0 : Nat))).header.length = 7 := by
  have hlong : 65531 < (List.replicate 65532 (0 : Nat)).length := by
    rw [List.length_replicate]
    omega
  have hshort : (List.replicate 3 (0 : Nat)).length ≤ 65531 := by
    rw [List.length_replicate]
    omega
  refine ⟨fun hc => ?_, hlong, ?_, hshort, ?_⟩
  · rw [List.length_replicate] at hc
    omega
  · exact (c9_tpkt_new_length_wraps (List.replicate 65532 0)).2.2.1 hlong
  · have h7 := ((c9_tpkt_new_length_wraps (List.replicate 3 0)).2.1 hshort).1
    rw [List.length_replicate] at h7
    exact h7

/-! ## Capability-set claim theorems -/

/-- C1 (counterexample): a type value outside the 29-entry
`CapabilitySetType` enumeration is rejected by the header decoder with a
parse error, so `CapabilitySet::decode` does not return the opaque Unknown
variant for it. Input: type 0x0006 (not in the enumeration), length 4,
empty body — the claim asserts this decodes to `Unknown(6, [])`. -/
theorem c1_counterexample :
    CapabilitySet.decode [0x06, 0x00, 0x04, 0x00] = .error .parseError := rfl

/-- C1 (amended): for every capability-set byte sequence whose 16-bit
little-endian type value is one of the 24 recognized capability types
without a dedicated body decoder (every `CapabilitySetType` value except
General=0x0001, Bitmap=0x0002, Order=0x0003, Input=0x000D), and whose
16-bit length is at least 4, decoding succeeds with the opaque Unknown
variant carrying that type value and exactly the declared length−4 body
bytes, leaves trailing input unread, and re-encoding reproduces exactly the
original header and body bytes. For type values outside the recognized
enumeration the decoder fails with a parse error instead (see the
counterexample). -/
theorem c1_unknown_capability_roundtrip (t L : Nat) (body rest : List Nat)
    (hmem : t ∈ [0x04, 0x05, 0x07, 0x08, 0x09, 0x0A, 0x0C, 0x0E, 0x0F, 0x10,
      0x11, 0x12, 0x13, 0x14, 0x15, 0x16, 0x17, 0x18, 0x19, 0x1A, 0x1B, 0x1C,
      0x1D, 0x1E])
    (hL4 : 4 ≤ L) (hL : L < 65536)
    (hbody : body.length = L - 4) :
    CapabilitySet.decode (writeU16le t ++ writeU16le L ++ (body ++ rest))
      = .ok (.Unknown t body, rest)
    ∧ CapabilitySet.encode (.Unknown t body)
      = writeU16le t ++ writeU16le L ++ body := by
  have hre : readExact (L - 4) (body ++ rest) = .ok (body, rest) := by
    rw [← hbody]
    exact readExact_append body rest
  have hmod : (4 + body.length) % 65536 = L := by omega
  fin_cases hmem <;>
    refine ⟨?_, ?_⟩ <;>
      simp [CapabilitySet.decode, CapabilitySet.encode, CapabilitySetHeader.decode,
        CapabilitySetHeader.encode, CapabilitySetHeader.SIZE,
        CapabilitySetType.from_u16, CapabilitySetType.as_u16,
        readU16le_writeU16le, Nat.mod_eq_of_lt hL, bind, Except.bind, pure,
        Except.pure, hre, hmod, Option.getD_some]

/-- Witness for C1 (amended) at type 0x0004 (BitmapCache, recognized, no
dedicated body), length 6, body [0xAA, 0xBB]. -/
theorem c1_witness :
    CapabilitySet.decode (writeU16le 4 ++ writeU16le 6 ++ ([0xAA, 0xBB] ++ []))
      = .ok (.Unknown 4 [0xAA, 0xBB], [])
    ∧ CapabilitySet.encode (.Unknown 4 [0xAA, 0xBB])
      = writeU16le 4 ++ writeU16le 6 ++ [0xAA, 0xBB] :=
  c1_unknown_capability_roundtrip 4 6 [0xAA, 0xBB] []
    (by decide) (by decide) (by decide) (by decide)

/-! ## X.224 Connection Request claim theorems -/

theorem neg_attempt_eq_negParse (r : List Nat) :
    (match RdpNegotiation.decode r with
      | .ok (n, _) => some n
      | .error _ => none) = negParse r := by
  rcases r with _ | ⟨t, _ | ⟨f, _ | ⟨l0, _ | ⟨l1, _ | ⟨p0, _ | ⟨p1, _ | ⟨p2, _ |
    ⟨p3, r2⟩⟩⟩⟩⟩⟩⟩⟩ <;>
    simp [RdpNegotiation.decode, negParse, readU8, readU16le, readU32le,
      RDP_NEG_DATA_SIZE, bind, Except.bind, throw, throwThe,
      MonadExceptOf.throw, pure, Except.pure] <;>
    split_ifs <;>
    simp

/-- Complete characterization of `ConnectionRequest::decode` on a type-0xE0
spine with its declared variable bytes supplied: shared between C10 and the
amended C2. -/
theorem cr_decode_spine (li d0 d1 s0 s1 co : Nat) (vd rest : List Nat)
    (hvd : vd.length = li + 1 - 7) :
    ConnectionRequest.decode (li :: 0xE0 :: d0 :: d1 :: s0 :: s1 :: co :: (vd ++ rest))
      = .ok ({ header := ⟨li, 0xE0, d0 + 256 * d1, s0 + 256 * s1, co⟩,
               cookie := (parseVariable vd).1,
               rdp_negotiation := (parseVariable vd).2 }, rest) := by
  by_cases h0 : 0 < li + 1 - 7
  · have h6 : 6 < li := by omega
    have hex : readExact (li - 6) (vd ++ rest) = .ok (vd, rest) := by
      have hlen : vd.length = li - 6 := by omega
      rw [← hlen]
      exact readExact_append vd rest
    simp [ConnectionRequest.decode, ConnectionHeader.decode, readU8, readU16le,
      X224_CR_TYPE, X224_CC_TYPE, X224_CONNECTION_HEADER_MIN_SIZE, h6, hex,
      bind, Except.bind, throw, throwThe, MonadExceptOf.throw, pure, Except.pure]
  · have hnil : vd = [] := by
      have : vd.length = 0 := by omega
      exact List.length_eq_zero.mp this
    subst hnil
    have h6 : ¬ 6 < li := by omega
    have hp : parseVariable ([] : List Nat) = (none, none) := rfl
    simp [ConnectionRequest.decode, ConnectionHeader.decode, readU8, readU16le,
      X224_CR_TYPE, X224_CC_TYPE, X224_CONNECTION_HEADER_MIN_SIZE, h6, hp,
      bind, Except.bind, throw, throwThe, MonadExceptOf.throw, pure, Except.pure]

/-- C10: for every input whose 7-byte spine has PDU type 0xE0 and which
supplies the declared `length-indicator + 1 − 7` variable bytes,
`ConnectionRequest::decode` succeeds; the cookie and negotiation fields are
whatever the total variable-region parse yields (`None` when the region
parses as neither), never an error, and trailing input is left unread. -/
theorem c10_cr_decode_total (li d0 d1 s0 s1 co : Nat) (vd rest : List Nat)
    (hvd : vd.length = li + 1 - 7) :
    ConnectionRequest.decode (li :: 0xE0 :: d0 :: d1 :: s0 :: s1 :: co :: (vd ++ rest))
      = .ok ({ header := ⟨li, 0xE0, d0 + 256 * d1, s0 + 256 * s1, co⟩,
               cookie := (parseVariable vd).1,
               rdp_negotiation := (parseVariable vd).2 }, rest) :=
  cr_decode_spine li d0 d1 s0 s1 co vd rest hvd

/-- Witness for C10: a bare Connection Request (no variable part) and one
whose 3-byte variable region parses as neither cookie nor negotiation. -/
theorem c10_witness :
    ConnectionRequest.decode [6, 0xE0, 0, 0, 0x34, 0x12, 0]
      = .ok ({ header := ⟨6, 0xE0, 0, 0x1234, 0⟩, cookie := none,
               rdp_negotiation := none }, [])
    ∧ ConnectionRequest.decode [9, 0xE0, 0, 0, 0, 0, 0, 0xFF, 0, 7]
      = .ok ({ header := ⟨9, 0xE0, 0, 0, 0⟩, cookie := none,
               rdp_negotiation := none }, []) := by
  constructor
  · exact c10_cr_decode_total 6 0 0 0x34 0x12 0 [] [] (by decide)
  · exact c10_cr_decode_total 9 0 0 0 0 0 [0xFF, 0, 7] [] (by decide)

/-- C5 (counterexample): a variable region that begins with the cookie tag
and contains a CRLF, but whose bytes after the CRLF are not valid UTF-8
(here a single 0xFF), yields `cookie = None`: the code first requires the
entire variable region to pass `std::str::from_utf8`, so the decoded cookie
is not independent of the bytes following the CRLF as the claim states
(the claim demands `cookie = Some("Cookie: mstshash=a\r\n")` here). -/
theorem c5_counterexample :
    ConnectionRequest.decode
        ([27, 0xE0, 0, 0, 0, 0, 0] ++ (cookieTag ++ [97, 13, 10, 0xFF]))
      = .ok ({ header := ⟨27, 0xE0, 0, 0, 0⟩, cookie := none,
               rdp_negotiation := none }, []) := rfl

/-- Characterization of the variable-region parse when a valid cookie is
present: shared between C5 and the amended C2. -/
theorem parseVariable_spec (vd : List Nat) (e : Nat)
    (hvalid : isValidUtf8 vd = true)
    (hstart : cookieTag.isPrefixOf vd = true)
    (hfind : findCrlf vd = some e) :
    parseVariable vd = (some (vd.take (e + 2)), negParse (vd.drop (e + 2))) := by
  unfold parseVariable
  rw [hvalid, hstart, hfind]
  by_cases hlt : e + 2 < vd.length
  · simp [hlt, neg_attempt_eq_negParse]
  · have hdrop : vd.drop (e + 2) = [] := by
      rw [List.drop_eq_nil_iff]
      omega
    simp [hlt, hdrop, negParse]

/-- C5 (amended): for every variable region that is entirely valid UTF-8,
begins with `Cookie: mstshash=` and contains a CRLF at byte index e, the
decoded cookie is the region's prefix up to and including that first CRLF;
and a negotiation block is decoded from the bytes after the cookie exactly
when at least 8 of them remain and their 16-bit little-endian field at
offset 2 equals 8 — the type byte is not restricted to 0x01/0x02/0x03
(`negParse` states these conditions). -/
theorem c5_cookie_parsing_amended (vd : List Nat) (e : Nat)
    (hvalid : isValidUtf8 vd = true)
    (hstart : cookieTag.isPrefixOf vd = true)
    (hfind : findCrlf vd = some e) :
    parseVariable vd = (some (vd.take (e + 2)), negParse (vd.drop (e + 2))) :=
  parseVariable_spec vd e hvalid hstart hfind

/-- Witness for C5 (amended): region `Cookie: mstshash=u\r\n` followed by a
well-formed negotiation block with type byte 0x7F, which is outside
{0x01, 0x02, 0x03} yet decoded anyway. -/
theorem c5_witness :
    parseVariable (cookieTag ++ [117, 13, 10, 0x7F, 0, 8, 0, 1, 0, 0, 0])
      = (some (cookieTag ++ [117, 13, 10]),
          some { neg_type := 0x7F, flags := 0, selected_protocol := 1 }) := by
  have h := c5_cookie_parsing_amended
    (cookieTag ++ [117, 13, 10, 0x7F, 0, 8, 0, 1, 0, 0, 0]) 18
    (by decide) (by decide) (by decide)
  simpa [cookieTag, negParse] using h

/-! ## Round-trip lemmas for the amended C2 -/

theorem tpkt_roundtrip (p : List Nat) (hp : p.length ≤ 65531) :
    TpktPacket.decode (TpktPacket.encode (TpktPacket.new p))
      = .ok (TpktPacket.new p, []) := by
  have hL : (4 + p.length % 65536) % 65536 = 4 + p.length := by omega
  have hge : ¬(4 + p.length < 4) := by omega
  have hsub : 4 + p.length - 4 = p.length := by omega
  have hex : readExact p.length p = .ok (p, []) := readExact_self p
  have hMM : ∀ x : Nat, x % 65536 % 65536 = x % 65536 := fun x =>
    Nat.mod_mod_of_dvd x dvd_rfl
  have hL2 : (4 + p.length) % 65536 = 4 + p.length := by omega
  simp only [TpktPacket.encode, TpktPacket.new, TpktHeader.encode,
    TpktHeader.new, TPKT_VERSION, TPKT_HEADER_SIZE, hL, writeU8,
    Nat.reduceMod, List.cons_append, List.nil_append, List.append_assoc]
  simp only [TpktPacket.decode, TpktHeader.decode, readU8,
    readU16be_writeU16be, hL, TpktHeader.payload_length, TPKT_VERSION,
    TPKT_HEADER_SIZE, bind, Except.bind, pure, Except.pure]
  simp only [hMM, hL, hL2]
  simp [hge, hsub, hex]

theorem isPrefixOf_append_self (l r : List Nat) : l.isPrefixOf (l ++ r) = true := by
  induction l with
  | nil => simp [List.isPrefixOf]
  | cons a as ih => simp [List.isPrefixOf, ih]

theorem cr_roundtrip (src proto : Nat) (user : List Nat)
    (hsrc : src < 65536) (hproto : proto < 4294967296)
    (huser : ∀ b ∈ user, b < 0x80 ∧ b ≠ 13)
    (hulen : user.length ≤ 222)
    (hp0 : proto % 256 < 0x80) (hp1 : proto / 256 % 256 < 0x80)
    (hp2 : proto / 65536 % 256 < 0x80) (hp3 : proto / 16777216 % 256 < 0x80) :
    ConnectionRequest.decode
        (ConnectionRequest.encode
          (((ConnectionRequest.new src).with_cookie user).with_negotiation proto))
      = .ok ((((ConnectionRequest.new src).with_cookie user).with_negotiation proto),
          []) := by
  have hcklen : (cookieTag ++ (user ++ [13, 10])).length = 19 + user.length := by
    simp [cookieTag]
    omega
  have hm : ((ConnectionRequest.new src).with_cookie user).with_negotiation proto
      = { header := ⟨33 + user.length, 0xE0, 0, src, 0⟩,
          cookie := some (cookieTag ++ (user ++ [13, 10])),
          rdp_negotiation := some (RdpNegotiation.new_request proto) } := by
    simp only [ConnectionRequest.new, ConnectionHeader.new_request,
      ConnectionRequest.with_cookie, ConnectionRequest.with_negotiation,
      ConnectionRequest.update_length_indicator, X224_CR_TYPE,
      X224_CONNECTION_HEADER_MIN_SIZE]
    simp [RdpNegotiation.size, RDP_NEG_DATA_SIZE, hcklen,
      ConnectionRequest.mk.injEq, ConnectionHeader.mk.injEq]
    omega
  have hli256 : (33 + user.length) % 256 = 33 + user.length := by omega
  have henc : ConnectionRequest.encode
      { header := ⟨33 + user.length, 0xE0, 0, src, 0⟩,
        cookie := some (cookieTag ++ (user ++ [13, 10])),
        rdp_negotiation := some (RdpNegotiation.new_request proto) }
      = (33 + user.length) :: 0xE0 :: 0 :: 0 :: (src % 256) :: (src / 256 % 256)
          :: 0 :: ((cookieTag ++ (user ++ ([13, 10]
            ++ (1 :: 0 :: 8 :: 0 :: writeU32le proto)))) ++ []) := by
    simp [ConnectionRequest.encode, ConnectionHeader.encode,
      RdpNegotiation.encode, RdpNegotiation.new_request, RDP_NEG_REQ,
      RDP_NEG_DATA_SIZE, writeU8, writeU16le, hli256, List.append_assoc]
  have hvdlen : (cookieTag ++ (user ++ ([13, 10]
      ++ (1 :: 0 :: 8 :: 0 :: writeU32le proto)))).length
        = (33 + user.length) + 1 - 7 := by
    simp [cookieTag, writeU32le]
    omega
  have hdec := cr_decode_spine (33 + user.length) 0 0 (src % 256)
    (src / 256 % 256) 0
    (cookieTag ++ (user ++ ([13, 10] ++ (1 :: 0 :: 8 :: 0 :: writeU32le proto))))
    [] hvdlen
  have hct : ∀ x ∈ cookieTag, x < 128 := by decide
  have hct13 : ∀ x ∈ cookieTag, x ≠ 13 := by decide
  have hvalid : isValidUtf8 (cookieTag ++ (user ++ ([13, 10]
      ++ (1 :: 0 :: 8 :: 0 :: writeU32le proto)))) = true := by
    apply isValidUtf8_of_ascii
    intro b hb
    rcases List.mem_append.mp hb with h | h
    · exact hct b h
    rcases List.mem_append.mp h with h | h
    · exact (huser b h).1
    rcases List.mem_append.mp h with h | h
    · simp only [List.mem_cons] at h
      rcases h with h | h | h <;> first | omega | simp at h
    · simp only [List.mem_cons, writeU32le] at h
      rcases h with h | h | h | h | h | h | h | h | h <;> first | omega | simp at h
  have hstart : cookieTag.isPrefixOf (cookieTag ++ (user ++ ([13, 10]
      ++ (1 :: 0 :: 8 :: 0 :: writeU32le proto)))) = true :=
    isPrefixOf_append_self cookieTag _
  have h13 : ∀ b ∈ cookieTag ++ user, b ≠ 13 := by
    intro b hb
    rcases List.mem_append.mp hb with h | h
    · exact hct13 b h
    · exact (huser b h).2
  have hfind : findCrlf (cookieTag ++ (user ++ ([13, 10]
      ++ (1 :: 0 :: 8 :: 0 :: writeU32le proto)))) = some (17 + user.length) := by
    have h := findCrlf_append (cookieTag ++ user) h13
      (1 :: 0 :: 8 :: 0 :: writeU32le proto)
    have hlen17 : (cookieTag ++ user).length = 17 + user.length := by
      simp [cookieTag]
      omega
    rw [hlen17] at h
    rw [← h]
    congr 1
  have hpv := parseVariable_spec _ (17 + user.length) hvalid hstart hfind
  have hassoc2 : (cookieTag ++ (user ++ ([13, 10]
      ++ (1 :: 0 :: 8 :: 0 :: writeU32le proto))))
      = (cookieTag ++ (user ++ [13, 10])) ++ (1 :: 0 :: 8 :: 0 :: writeU32le proto) := by
    simp [List.append_assoc]
  have hlen19 : (cookieTag ++ (user ++ [13, 10])).length = 17 + user.length + 2 := by
    rw [hcklen]
    omega
  have htake : (cookieTag ++ (user ++ ([13, 10]
      ++ (1 :: 0 :: 8 :: 0 :: writeU32le proto)))).take (17 + user.length + 2)
      = cookieTag ++ (user ++ [13, 10]) := by
    rw [hassoc2]
    exact List.take_left' hlen19
  have hdrop : (cookieTag ++ (user ++ ([13, 10]
      ++ (1 :: 0 :: 8 :: 0 :: writeU32le proto)))).drop (17 + user.length + 2)
      = 1 :: 0 :: 8 :: 0 :: writeU32le proto := by
    rw [hassoc2]
    exact List.drop_left' hlen19
  have hnp : negParse (1 :: 0 :: 8 :: 0 :: writeU32le proto)
      = some (RdpNegotiation.new_request proto) := by
    simp [negParse, writeU32le, RdpNegotiation.new_request, RDP_NEG_REQ]
    omega
  rw [hm, henc, hdec, hpv, htake, hdrop, hnp]
  have hsrc2 : src % 256 + 256 * (src / 256 % 256) = src := by omega
  simp [hsrc2]

theorem client_info_roundtrip (cp flags : Nat) (d u pw sh wd : List Nat)
    (hcp : cp < 4294967296)
    (hflags : flags &&& CLIENT_INFO_FLAGS_MASK = flags)
    (hd : ∀ c ∈ d, 0 < c ∧ c < 0x80) (hdl : d.length < 32767)
    (hu : ∀ c ∈ u, 0 < c ∧ c < 0x80) (hul : u.length < 32767)
    (hpw : ∀ c ∈ pw, 0 < c ∧ c < 0x80) (hpwl : pw.length < 32767)
    (hsh : ∀ c ∈ sh, 0 < c ∧ c < 0x80) (hshl : sh.length < 32767)
    (hwd : ∀ c ∈ wd, 0 < c ∧ c < 0x80) (hwdl : wd.length < 32767) :
    ClientInfoPdu.decode (ClientInfoPdu.encode ⟨cp, flags, d, u, pw, sh, wd, none⟩)
      = .ok (⟨cp, flags, d, u, pw, sh, wd, none⟩, []) := by
  have hfl : flags < 4294967296 := by
    have h1 : flags ≤ CLIENT_INFO_FLAGS_MASK := hflags ▸ Nat.and_le_right
    have h2 : CLIENT_INFO_FLAGS_MASK < 4294967296 := by decide
    omega
  have hesl_d : encode_string_length d = (d.length + 1) * 2 := by
    simp only [encode_string_length, strUtf8Len_ascii d (fun c hc => (hd c hc).2)]
    omega
  have hesl_u : encode_string_length u = (u.length + 1) * 2 := by
    simp only [encode_string_length, strUtf8Len_ascii u (fun c hc => (hu c hc).2)]
    omega
  have hesl_pw : encode_string_length pw = (pw.length + 1) * 2 := by
    simp only [encode_string_length, strUtf8Len_ascii pw (fun c hc => (hpw c hc).2)]
    omega
  have hesl_sh : encode_string_length sh = (sh.length + 1) * 2 := by
    simp only [encode_string_length, strUtf8Len_ascii sh (fun c hc => (hsh c hc).2)]
    omega
  have hesl_wd : encode_string_length wd = (wd.length + 1) * 2 := by
    simp only [encode_string_length, strUtf8Len_ascii wd (fun c hc => (hwd c hc).2)]
    omega
  have hcb_d : (d.length + 1) * 2 % 65536 = (d.length + 1) * 2 := by omega
  have hcb_u : (u.length + 1) * 2 % 65536 = (u.length + 1) * 2 := by omega
  have hcb_pw : (pw.length + 1) * 2 % 65536 = (pw.length + 1) * 2 := by omega
  have hcb_sh : (sh.length + 1) * 2 % 65536 = (sh.length + 1) * 2 := by omega
  have hcb_wd : (wd.length + 1) * 2 % 65536 = (wd.length + 1) * 2 := by omega
  have hr_d : ∀ rest, read_unicode_string ((d.length + 1) * 2)
      (write_unicode_string d ++ rest) = .ok (d, rest) := fun rest =>
    hesl_d ▸ read_unicode_string_roundtrip d rest hd hdl
  have hr_u : ∀ rest, read_unicode_string ((u.length + 1) * 2)
      (write_unicode_string u ++ rest) = .ok (u, rest) := fun rest =>
    hesl_u ▸ read_unicode_string_roundtrip u rest hu hul
  have hr_pw : ∀ rest, read_unicode_string ((pw.length + 1) * 2)
      (write_unicode_string pw ++ rest) = .ok (pw, rest) := fun rest =>
    hesl_pw ▸ read_unicode_string_roundtrip pw rest hpw hpwl
  have hr_sh : ∀ rest, read_unicode_string ((sh.length + 1) * 2)
      (write_unicode_string sh ++ rest) = .ok (sh, rest) := fun rest =>
    hesl_sh ▸ read_unicode_string_roundtrip sh rest hsh hshl
  have hr_wd0 : read_unicode_string ((wd.length + 1) * 2)
      (write_unicode_string wd) = .ok (wd, []) := by
    have h := read_unicode_string_roundtrip wd [] hwd hwdl
    rw [hesl_wd] at h
    simpa using h
  simp only [ClientInfoPdu.encode, hesl_d, hesl_u, hesl_pw, hesl_sh, hesl_wd,
    List.append_assoc, List.append_nil]
  simp only [ClientInfoPdu.decode, readU32le_writeU32le, readU16le_writeU16le,
    Nat.mod_eq_of_lt hcp, Nat.mod_eq_of_lt hfl, hcb_d, hcb_u, hcb_pw, hcb_sh,
    hcb_wd, hr_d, hr_u, hr_pw, hr_sh, hr_wd0, hflags, bind,
    Except.bind, pure, Except.pure]
  simp [readU16le]

/-! ## Client Info claim theorems (C3, C6 and the C2 counterexample) -/

/-- C6 (failing-input evaluation): the byte-count fields are computed by
`encode_string_length` from `String::len`, the UTF-8 byte length. For the
ASCII strings of the claim the concrete values 20, 12 and 10 hold, but for
the one-character string U+C548 the field is (3+1)*2 = 8 while the claimed
UTF-16 formula gives (1+1)*2 = 4, which is what `write_unicode_string`
actually emits — so the written byte count disagrees with both the claim
and the bytes written. -/
theorem c6_cb_field_uses_utf8_length :
    encode_string_length [87, 79, 82, 75, 71, 82, 79, 85, 80] = 20
    ∧ encode_string_length [97, 100, 109, 105, 110] = 12
    ∧ encode_string_length [112, 97, 115, 115] = 10
    ∧ encode_string_length [0xC548] = 8
    ∧ ((encodeUtf16 [0xC548]).length + 1) * 2 = 4
    ∧ (write_unicode_string [0xC548]).length = 4 := by
  refine ⟨rfl, rfl, rfl, rfl, rfl, rfl⟩

/-- C3 (failing-input evaluation): for a Client Info PDU whose domain is the
single non-ASCII character U+C548 (and all other strings empty, no extended
info), `size` reports 34 bytes but `encode` writes only 30: `size` counts
`(String::len + 1) * 2` per string, i.e. UTF-8 bytes, while the encoder
writes UTF-16LE code units. -/
theorem c3_size_mismatch_nonascii :
    ClientInfoPdu.size ⟨0, 0, [0xC548], [], [], [], [], none⟩ = 34
    ∧ (ClientInfoPdu.encode ⟨0, 0, [0xC548], [], [], [], [], none⟩).length = 30 := by
  refine ⟨rfl, rfl⟩

/-- C2 (amended): decode-after-encode returns the original value for the
families the counterexample leaves intact: TPKT packets whose payload fits
the 16-bit length field (up to 65531 bytes); Connection Requests built from
a source reference, a cookie user name of at most 222 ASCII bytes free of
CR, and a negotiation protocol below 2^32 whose four little-endian bytes
are ASCII; and Client Info PDUs whose flags carry only defined bits and
whose five strings are ASCII without NUL and shorter than 32767
characters, with no extended-info block. -/
theorem c2_roundtrip_amended :
    (∀ p : List Nat, p.length ≤ 65531 →
      TpktPacket.decode (TpktPacket.encode (TpktPacket.new p))
        = .ok (TpktPacket.new p, []))
    ∧ (∀ (src proto : Nat) (user : List Nat),
        src < 65536 → proto < 4294967296 →
        (∀ b ∈ user, b < 0x80 ∧ b ≠ 13) → user.length ≤ 222 →
        proto % 256 < 0x80 → proto / 256 % 256 < 0x80 →
        proto / 65536 % 256 < 0x80 → proto / 16777216 % 256 < 0x80 →
        ConnectionRequest.decode (ConnectionRequest.encode
            (((ConnectionRequest.new src).with_cookie user).with_negotiation proto))
          = .ok ((((ConnectionRequest.new src).with_cookie user).with_negotiation
              proto), []))
    ∧ (∀ (cp flags : Nat) (d c2u pw sh wd : List Nat),
        cp < 4294967296 → flags &&& CLIENT_INFO_FLAGS_MASK = flags →
        (∀ c ∈ d, 0 < c ∧ c < 0x80) → d.length < 32767 →
        (∀ c ∈ c2u, 0 < c ∧ c < 0x80) → c2u.length < 32767 →
        (∀ c ∈ pw, 0 < c ∧ c < 0x80) → pw.length < 32767 →
        (∀ c ∈ sh, 0 < c ∧ c < 0x80) → sh.length < 32767 →
        (∀ c ∈ wd, 0 < c ∧ c < 0x80) → wd.length < 32767 →
        ClientInfoPdu.decode
            (ClientInfoPdu.encode ⟨cp, flags, d, c2u, pw, sh, wd, none⟩)
          = .ok (⟨cp, flags, d, c2u, pw, sh, wd, none⟩, [])) :=
  ⟨tpkt_roundtrip,
   fun src proto user h1 h2 h3 h4 h5 h6 h7 h8 =>
     cr_roundtrip src proto user h1 h2 h3 h4 h5 h6 h7 h8,
   fun cp flags d c2u pw sh wd h1 h2 h3 h4 h5 h6 h7 h8 h9 h10 h11 h12 =>
     client_info_roundtrip cp flags d c2u pw sh wd h1 h2 h3 h4 h5 h6 h7 h8 h9
       h10 h11 h12⟩

/-- Witness for C2 (amended): a 3-byte TPKT payload, a Connection Request
with cookie user "test" and TLS negotiation, and a Client Info PDU with
domain "W", user "admin", password "p". -/
theorem c2_witness :
    TpktPacket.decode (TpktPacket.encode (TpktPacket.new [1, 2, 3]))
      = .ok (TpktPacket.new [1, 2, 3], [])
    ∧ ConnectionRequest.decode (ConnectionRequest.encode
        (((ConnectionRequest.new 0x1234).with_cookie
          [116, 101, 115, 116]).with_negotiation 1))
      = .ok ((((ConnectionRequest.new 0x1234).with_cookie
          [116, 101, 115, 116]).with_negotiation 1), [])
    ∧ ClientInfoPdu.decode (ClientInfoPdu.encode
        ⟨0, 0, [87], [97, 100, 109, 105, 110], [112], [], [], none⟩)
      = .ok (⟨0, 0, [87], [97, 100, 109, 105, 110], [112], [], [], none⟩, []) := by
  refine ⟨c2_roundtrip_amended.1 [1, 2, 3] (by decide),
    c2_roundtrip_amended.2.1 0x1234 1 [116, 101, 115, 116] (by decide)
      (by decide) (by decide) (by decide) (by decide) (by decide) (by decide)
      (by decide),
    c2_roundtrip_amended.2.2 0 0 [87] [97, 100, 109, 105, 110] [112] [] []
      (by decide) (by decide) (by decide) (by decide) (by decide) (by decide)
      (by decide) (by decide) (by decide) (by decide) (by decide) (by decide)⟩

/-- C2 (counterexample): decoding the encoding of the Client Info PDU whose
domain is the single character U+C548 (all other fields empty/zero) fails
with an I/O error instead of returning the original value: the cb-domain
field (8, from the UTF-8 length) exceeds the 4 bytes actually written for
the domain, so the string reads run past their fields and off the end of
the buffer. -/
theorem c2_counterexample :
    ClientInfoPdu.decode
        (ClientInfoPdu.encode ⟨0, 0, [0xC548], [], [], [], [], none⟩)
      = .error .ioError := by
  rfl

/-! ## Claim theorems: BER writers and MCS confirms -/

/-- C8: the BER length writer emits [127] for 127, [0x81, 0x80] for 128,
[0x82, 0x01, 0x00] for 256 and [0x82, 0xFF, 0xFF] for 65535; the BER integer
writer emits [0x02, 0x01, 0x00] for 0 and [0x02, 0x02, 0x00, 0x80] for 128,
prepending a zero byte when the most significant remaining byte has its high
bit set. -/
theorem c8_ber_writer_boundary_values :
    BerWriter.write_length 127 = [127]
    ∧ BerWriter.write_length 128 = [0x81, 0x80]
    ∧ BerWriter.write_length 256 = [0x82, 0x01, 0x00]
    ∧ BerWriter.write_length 65535 = [0x82, 0xFF, 0xFF]
    ∧ BerWriter.write_integer 0 = [0x02, 0x01, 0x00]
    ∧ BerWriter.write_integer 128 = [0x02, 0x02, 0x00, 0x80] := by
  refine ⟨rfl, rfl, rfl, rfl, rfl, rfl⟩

/-- C4 (failing-input evaluation): appending extra bytes after a well-formed
MCS confirm encoding changes the decoded optional trailing field. For an
Attach-User-Confirm failure (no initiator) and a Channel-Join-Confirm
failure (no actual channel-id), appending the BER integer bytes
[0x02, 0x01, 0x05] makes both decoders return the optional field as 5: the
decoders read to end of input and ignore the envelope length, so the
appended bytes are neither left unread nor without effect. -/
theorem c4_mcs_trailing_bytes_change_optional_field :
    AttachUserConfirm.decode
        (AttachUserConfirm.encode (.failure .RtTooManyUsers) ++ [0x02, 0x01, 0x05])
      = .ok { result := .RtTooManyUsers, user_id := some 5 }
    ∧ ChannelJoinConfirm.decode
        (ChannelJoinConfirm.encode (.failure .RtNoSuchChannel 1001 1003)
          ++ [0x02, 0x01, 0x05])
      = .ok { result := .RtNoSuchChannel, user_id := 1001,
              requested_channel_id := 1003, channel_id := some 5 } := by
  refine ⟨rfl, rfl⟩

end Pentardp
